/-
Verification of the SoFiA image pipeline (make_images.py, get_ancillary.py)
against its natural-language specification.

The development shallowly embeds the parts of the code the claims are
about:

* the base-contour computation (main, line 414),
* the contour-level sets passed to the renderer by each figure function,
* the velocity-map masking step (make_mom1, line 250),
* the field-of-view computation (main, lines 437-443),
* the survey-processing section of main (lines 455-515) as a small
  state machine over an abstract fetch environment,
* the output-file existence guards (make_overlay, make_pv) as
  file-system transformers,
* the FITS-handle open/close traces of each figure function.

Pixel data is modelled with exact rationals; NaN is modelled as the
Option.none sentinel where the code relies on NaN semantics.
-/
import Mathlib

/-! ## Base contour (main, line 414)

The code computes
`HIlowest = np.median(mom0[(snr > snr_range[0]) * (snr < snr_range[1])])`
with `snr_range = [2, 3]` by default.  Maps are flattened to lists of
pixel values; the intensity and significance maps have the same shape,
so they are co-indexed lists. -/

/-- Insert a rational into a sorted list, keeping it sorted. -/
def insertSorted (x : ℚ) : List ℚ → List ℚ
  | [] => [x]
  | y :: ys => if x ≤ y then x :: y :: ys else y :: insertSorted x ys

/-- Insertion sort for lists of rationals (ascending). -/
def sortQ : List ℚ → List ℚ
  | [] => []
  | x :: xs => insertSorted x (sortQ xs)

/-- Median as numpy computes it: sort; odd length takes the middle
element, even length averages the two middle elements.  The empty
selection yields numpy's NaN, modelled as none. -/
def medianQ (l : List ℚ) : Option ℚ :=
  let s := sortQ l
  let n := l.length
  if n = 0 then none
  else if n % 2 = 1 then s.get? (n / 2)
  else
    match s.get? (n / 2 - 1), s.get? (n / 2) with
    | some a, some b => some ((a + b) / 2)
    | _, _ => none

/-- Embedding of main line 414: the median of the intensity (mom0)
values at pixels whose significance (snr) value lies strictly inside
the band.  The boolean-array product `(snr > lo) * (snr < hi)` is the
pointwise conjunction. -/
def base_contour (mom0 snr : List ℚ) (lo hi : ℚ) : Option ℚ :=
  medianQ (((mom0.zip snr).filter (fun p => decide (lo < p.2) && decide (p.2 < hi))).map Prod.fst)

/-- The call in main uses the default band snr_range = [2, 3]. -/
def main_HIlowest (mom0 snr : List ℚ) : Option ℚ :=
  base_contour mom0 snr 2 3

/-- Spec-side description of the selection: the intensity values at
exactly those pixel coordinates whose co-located significance value is
strictly between lo and hi, in coordinate order. -/
def selectedVals : List ℚ → List ℚ → ℚ → ℚ → List ℚ
  | m :: ms, s :: ss, lo, hi =>
      if lo < s ∧ s < hi then m :: selectedVals ms ss lo hi
      else selectedVals ms ss lo hi
  | _, _, _, _ => []

theorem selectedVals_eq_zip_filter (mom0 snr : List ℚ) (lo hi : ℚ)
    (hlen : mom0.length = snr.length) :
    ((mom0.zip snr).filter (fun p => decide (lo < p.2) && decide (p.2 < hi))).map Prod.fst
      = selectedVals mom0 snr lo hi := by
  induction mom0 generalizing snr with
  | nil => cases snr <;> simp [selectedVals]
  | cons m ms ih =>
    cases snr with
    | nil => simp at hlen
    | cons s ss =>
      simp only [List.length_cons, Nat.succ_inj] at hlen
      have key := ih ss hlen
      by_cases h : lo < s ∧ s < hi
      · have hb : (decide (lo < s) && decide (s < hi)) = true := by
          simp [h.1, h.2]
        rw [List.zip_cons_cons, List.filter_cons, hb, if_pos rfl, List.map_cons, key]
        simp only [selectedVals, if_pos h]
      · have hb : (decide (lo < s) && decide (s < hi)) = false := by
          rcases not_and_or.mp h with h1 | h1 <;> simp [h1]
        rw [List.zip_cons_cons, List.filter_cons, hb, if_neg Bool.false_ne_true, key]
        simp only [selectedVals, if_neg h]

/-! ## Contour level sets passed to the renderer

Each figure function passes an explicit list of contour levels to
ax1.contour.  The lists are embedded as functions of the base contour
(and, for the position-velocity figure, of the slice data). -/

/-- The spec's contour ladder: the set of levels C * 2 ^ k for k in 0..9. -/
def contour_ladder (C : ℚ) : List ℚ :=
  (List.range 10).map (fun k => C * 2 ^ k)

/-- Embedding of make_overlay line 74: levels = base_contour * 2 ** np.arange(10). -/
def make_overlay_levels (C : ℚ) : List ℚ :=
  (List.range 10).map (fun k => C * 2 ^ k)

/-- Embedding of make_mom0 line 119: levels = base_contour * 2 ** np.arange(10). -/
def make_mom0_levels (C : ℚ) : List ℚ :=
  (List.range 10).map (fun k => C * 2 ^ k)

/-- Embedding of make_snr line 169: levels = [base_contour]. -/
def make_snr_levels (C : ℚ) : List ℚ :=
  [C]

/-- Embedding of make_color_im line 319: levels = base_contour * 2 ** np.arange(10). -/
def make_color_im_levels (C : ℚ) : List ℚ :=
  (List.range 10).map (fun k => C * 2 ^ k)

/-- Embedding of make_mom1 lines 260-265: the velocity-map figure
contours at systemic-velocity offsets, not at base-contour multiples. -/
def make_mom1_levels (v_sys velmin velmax : ℚ) : List ℚ :=
  if |velmax - velmin| > 200 then
    [v_sys - 100, v_sys - 50, v_sys, v_sys + 50, v_sys + 100]
  else
    [v_sys - 50, v_sys, v_sys + 50]

/-- Arithmetic mean of a list of rationals (0 for the empty list). -/
def listMean (l : List ℚ) : ℚ :=
  l.sum / l.length

/-- Embedding of np.nanstd squared: the mean of the squared deviations
from the mean (the position-velocity data is modelled NaN-free). -/
def pv_variance (l : List ℚ) : ℚ :=
  ((l.map (fun x => (x - listMean l) ^ 2)).sum) / l.length

/-- Embedding of make_pv line 353: pv_rms = np.nanstd(pv[0].data). -/
noncomputable def pv_rms (l : List ℚ) : ℝ :=
  Real.sqrt ((pv_variance l : ℚ) : ℝ)

/-- Embedding of make_pv line 359:
levels = [-2 * pv_rms, 2 * pv_rms, 4 * pv_rms]. -/
noncomputable def make_pv_levels (l : List ℚ) : List ℝ :=
  [-(2 * pv_rms l), 2 * pv_rms l, 4 * pv_rms l]

/-! ## Velocity-map masking (make_mom1, lines 244-250)

Reprojected products are maps from pixel index to an optional value;
none is the NaN sentinel used for pixels outside the reprojection
footprint.  The external reproject_interp capability is embedded per
its contract (spec section 4.4): a reprojected product carries a value
exactly where its footprint covers the target pixel. -/

/-- Embedding of the reprojection capability: the value lands on target
pixel i exactly when the footprint covers i; elsewhere NaN (none). -/
def reprojectPx (val : Nat → ℚ) (fp : Nat → Bool) : Nat → Option ℚ :=
  fun i => if fp i then some (val i) else none

/-- Numpy comparison with a NaN-bearing operand: NaN < c is False. -/
def npLt (a : Option ℚ) (c : ℚ) : Bool :=
  match a with
  | some v => decide (v < c)
  | none => false

/-- Embedding of make_mom1 line 250:
mom1_reprojected[hi_reprojected < HIlowest] = np.nan.
Pixels whose co-registered intensity compares below the base contour
are overwritten with NaN; all other pixels keep their value. -/
def mask_mom1 (mom1r hir : Nat → Option ℚ) (C : ℚ) : Nat → Option ℚ :=
  fun i => if npLt (hir i) C then none else mom1r i

/-! ## Field of view (main, lines 431-443) -/

/-- Embedding of main lines 437-443.  Xsize and Ysize are the
two-element arrays of (max - center) and (center - min) distances
converted to angular units by the cell size; if any of the four
entries exceeds half the default view, the view becomes
np.max([Xsize, Ysize]) * 2 * 1.05, else the default is kept.
1.05 is the exact rational 21/20. -/
def resolve_opt_view (Xc Xmin Xmax Yc Ymin Ymax cellsize default_view : ℚ) : ℚ :=
  if (Xmax - Xc) * cellsize > default_view / 2 ∨
     (Xc - Xmin) * cellsize > default_view / 2 ∨
     (Ymax - Yc) * cellsize > default_view / 2 ∨
     (Yc - Ymin) * cellsize > default_view / 2 then
    max (max ((Xmax - Xc) * cellsize) ((Xc - Xmin) * cellsize))
        (max ((Ymax - Yc) * cellsize) ((Yc - Ymin) * cellsize)) * 2 * (21 / 20)
  else
    default_view

/-! ## Survey processing (main, lines 455-515)

The survey section of main is embedded as a state machine over an
abstract fetch environment.  Identifiers: hst, panstarrs and decals
are the specially-handled surveys; every other entry is sent to the
SkyView service (constructor sky).  Headers are abstracted to natural
numbers.  The run is modelled fresh (no output figure file exists
yet), matching a first invocation on a new source.

Fetch outcomes:
* success h   - an image with header h is returned;
* noCoverage  - the service returns no image (get_skyview returns
                None; get_panstarrs and get_decals return (None, None);
                get_hst_cosmos, modelled from the spec because
                modules/get_hst_cosmos.py is not under src/, returns
                None per the fetch capability contract of spec
                section 6 — the same contract is used for the helpers
                of modules/panstarrs_fcns.py, also not under src/);
* transportError - an HTTPError is raised by the fetch (caught inside
                get_decals, caught by main for SkyView surveys);
* invalidName - a ValueError is raised (SkyView unknown survey name).

Crashes are uncaught Python exceptions escaping main:
* typeError      - subscripting None (hst_opt[0] when hst is first and
                   returned None; make_overlay receiving opt=None from
                   a SkyView noCoverage result, line 64);
* reprojectError - reproject_interp called with a None target header
                   inside make_color_im after a decals failure
                   (lines 484-486 call make_color_im unconditionally);
* uncaughtFetch  - an exception kind the enclosing code does not
                   catch at all. -/

inductive SurveyId where
  | hst
  | panstarrs
  | decals
  | sky (n : Nat)
deriving DecidableEq

inductive FetchResult where
  | success (hdr : Nat)
  | noCoverage
  | transportError
  | invalidName
deriving DecidableEq

inductive Crash where
  | typeError
  | reprojectError
  | uncaughtFetch
deriving DecidableEq

/-- Mutable state of the survey section: the caller's surveys list
(mutated in place by surveys.remove), the primary grid opt_head, and
the overlay figures produced so far (survey, header). -/
structure RunState where
  surveys : List SurveyId
  opt_head : Option Nat
  figures : List (SurveyId × Nat)
deriving DecidableEq

/-- Embedding of main lines 455-470 (hst branch): if hst is requested,
fetch it; on success make the overlay; if hst is the first entry of
the list, opt_head is set from hst_opt[0].header — which raises a
TypeError when hst_opt is None; finally surveys.remove('hst'). -/
def hstStep (fetch : SurveyId → FetchResult) (st : RunState) : Except Crash RunState :=
  if SurveyId.hst ∈ st.surveys then
    match fetch SurveyId.hst with
    | FetchResult.success h =>
        Except.ok ⟨st.surveys.erase SurveyId.hst,
          (if st.surveys.head? = some SurveyId.hst then some h else st.opt_head),
          st.figures ++ [(SurveyId.hst, h)]⟩
    | _ =>
        if st.surveys.head? = some SurveyId.hst then Except.error Crash.typeError
        else Except.ok ⟨st.surveys.erase SurveyId.hst, st.opt_head, st.figures⟩
  else Except.ok st

/-- Embedding of main lines 473-480 (panstarrs branch): fetch; the
color-image figure is made only if the image is truthy; if panstarrs
is the first entry, opt_head is assigned pstar_head — None on
failure, overwriting any earlier grid; then surveys.remove. -/
def panstarrsStep (fetch : SurveyId → FetchResult) (st : RunState) : Except Crash RunState :=
  if SurveyId.panstarrs ∈ st.surveys then
    match fetch SurveyId.panstarrs with
    | FetchResult.success h =>
        Except.ok ⟨st.surveys.erase SurveyId.panstarrs,
          (if st.surveys.head? = some SurveyId.panstarrs then some h else st.opt_head),
          st.figures ++ [(SurveyId.panstarrs, h)]⟩
    | _ =>
        Except.ok ⟨st.surveys.erase SurveyId.panstarrs,
          (if st.surveys.head? = some SurveyId.panstarrs then none else st.opt_head),
          st.figures⟩
  else Except.ok st

/-- Embedding of main lines 483-489 (decals branch): fetch (HTTPError
is caught inside get_decals, yielding (None, None)); make_color_im is
called unconditionally, so a failed fetch reaches reproject_interp
with a None target header and crashes on a fresh run; a ValueError
would not be caught anywhere; on success the figure is made and, if
decals is the first entry, opt_head is assigned; then surveys.remove. -/
def decalsStep (fetch : SurveyId → FetchResult) (st : RunState) : Except Crash RunState :=
  if SurveyId.decals ∈ st.surveys then
    match fetch SurveyId.decals with
    | FetchResult.success h =>
        Except.ok ⟨st.surveys.erase SurveyId.decals,
          (if st.surveys.head? = some SurveyId.decals then some h else st.opt_head),
          st.figures ++ [(SurveyId.decals, h)]⟩
    | FetchResult.invalidName => Except.error Crash.uncaughtFetch
    | _ => Except.error Crash.reprojectError
  else Except.ok st

/-- Embedding of one iteration of main lines 493-505 (SkyView loop
body).  hd is surveys[0] of the list the loop iterates over (the list
is not mutated inside the loop).  On success the overlay is made and,
if this survey equals surveys[0], opt_head is set.  ValueError and
HTTPError are caught and skip the survey.  A None result (noCoverage)
reaches make_overlay, which subscripts it at line 64: TypeError. -/
def skyviewStep (fetch : SurveyId → FetchResult) (hd : Option SurveyId)
    (s : SurveyId) (st : RunState) : Except Crash RunState :=
  match fetch s with
  | FetchResult.success h =>
      Except.ok ⟨st.surveys,
        (if hd = some s then some h else st.opt_head),
        st.figures ++ [(s, h)]⟩
  | FetchResult.noCoverage => Except.error Crash.typeError
  | FetchResult.transportError => Except.ok st
  | FetchResult.invalidName => Except.ok st

/-- The SkyView loop over the remaining surveys. -/
def skyviewLoop (fetch : SurveyId → FetchResult) (hd : Option SurveyId) :
    List SurveyId → RunState → Except Crash RunState
  | [], st => Except.ok st
  | s :: rest, st =>
      match skyviewStep fetch hd s st with
      | Except.ok st2 => skyviewLoop fetch hd rest st2
      | Except.error e => Except.error e

/-- Embedding of main lines 455-505: the hst, panstarrs and decals
branches in program order, then the SkyView loop over whatever is
left of the caller's list. -/
def processSurveys (fetch : SurveyId → FetchResult) (s0 : List SurveyId) :
    Except Crash RunState :=
  match hstStep fetch ⟨s0, none, []⟩ with
  | Except.error e => Except.error e
  | Except.ok st1 =>
      match panstarrsStep fetch st1 with
      | Except.error e => Except.error e
      | Except.ok st2 =>
          match decalsStep fetch st2 with
          | Except.error e => Except.error e
          | Except.ok st3 => skyviewLoop fetch st3.surveys.head? st3.surveys st3

/-! ## Top of main (lines 399-521): contour gate, grid products, pv -/

/-- Which data-product files exist for the source (cubelets). -/
structure Files where
  snr : Bool
  mom0 : Bool
  pv : Bool
deriving DecidableEq

/-- Observable outcome of a completed run of main. -/
structure MainResult where
  finalSurveys : List SurveyId
  opt_head : Option Nat
  overlayFigures : List (SurveyId × Nat)
  gridFiguresMade : Bool
  pvMade : Bool
deriving DecidableEq

/-- Outcome of a call to main: the early return at line 418 when the
snr or mom0 file is missing (the caller's surveys list is returned
unmutated, since the survey section was never reached), an uncaught
exception, or a completed run. -/
inductive MainOutcome where
  | earlyReturn (surveys : List SurveyId)
  | crashed (e : Crash)
  | done (r : MainResult)
deriving DecidableEq

/-- Embedding of main (fresh run): the base-contour computation needs
both the snr and mom0 files (lines 412-418) and otherwise returns
early; then the survey section runs; the grid-dependent figures
(mom0 grayscale, snr, mom1) run only when opt_head is truthy
(line 508); make_pv runs last (line 515) and, on a fresh run,
produces its figure exactly when the pv file exists. -/
def mainModel (fetch : SurveyId → FetchResult) (files : Files)
    (s0 : List SurveyId) : MainOutcome :=
  if files.snr && files.mom0 then
    match processSurveys fetch s0 with
    | Except.error e => MainOutcome.crashed e
    | Except.ok st =>
        MainOutcome.done ⟨st.surveys, st.opt_head, st.figures,
          st.opt_head.isSome, files.pv⟩
  else MainOutcome.earlyReturn s0

/-- Whether a run of main produced the position-velocity figure. -/
def pvProduced : MainOutcome → Bool
  | MainOutcome.done r => r.pvMade
  | _ => false

/-- Concrete fetch environment: panstarrs and decals succeed with
distinct headers, every other survey errors at transport. -/
def fetchC1cx : SurveyId → FetchResult
  | SurveyId.panstarrs => FetchResult.success 1
  | SurveyId.decals => FetchResult.success 2
  | _ => FetchResult.transportError

/-- Concrete fetch environment: the first SkyView survey has no
coverage, the second would succeed. -/
def fetchC6cx : SurveyId → FetchResult
  | SurveyId.sky 1 => FetchResult.success 3
  | _ => FetchResult.noCoverage

/-- Concrete fetch environment in which every fetch succeeds. -/
def fetchAllSucc : SurveyId → FetchResult
  | _ => FetchResult.success 7

/-- Concrete fetch environment in which every fetch hits a transport
error. -/
def fetchAllTransport : SurveyId → FetchResult
  | _ => FetchResult.transportError

/-- Concrete file state: the snr cubelet is missing, mom0 and pv exist. -/
def filesNoSnr : Files := ⟨false, true, true⟩

/-- Concrete file state: all product files exist. -/
def filesAll : Files := ⟨true, true, true⟩

/-! ## Output-file existence guards (make_overlay lines 50-94,
make_pv lines 340-396)

Each figure function first checks os.path.isfile(outfile) and returns
without writing when the output already exists; otherwise it opens the
data product (returning without a write when that file is missing) and
writes the figure.  The file system is a list of existing paths; the
returned boolean reports whether a write happened. -/

/-- Embedding of make_overlay's file behaviour. -/
def make_overlay_fs (fs : List String) (outfile mom0file : String) :
    List String × Bool :=
  if outfile ∈ fs then (fs, false)
  else if mom0file ∈ fs then (outfile :: fs, true)
  else (fs, false)

/-- Embedding of make_pv's file behaviour. -/
def make_pv_fs (fs : List String) (outfile pvfile : String) :
    List String × Bool :=
  if outfile ∈ fs then (fs, false)
  else if pvfile ∈ fs then (outfile :: fs, true)
  else (fs, false)

/-! ## FITS handle traces (spec section 5 resource discipline)

For each figure function, the trace of handles it opens and closes as
a function of which files exist (oE: the output figure, and the data
products it reads).  A fits.open inside a try block that raises
FileNotFoundError opens nothing; a fits.open outside any try crashes
the function if the file is missing, leaving earlier handles open. -/

inductive Handle where
  | mom0H
  | snrH
  | mom1H
  | pvH
deriving DecidableEq

structure HandleTrace where
  opened : List Handle
  closed : List Handle
deriving DecidableEq

/-- Handles still open when the step finishes (or crashes). -/
def leftover (t : HandleTrace) : List Handle :=
  t.opened.filter (fun h => decide (h ∉ t.closed))

/-- make_overlay (lines 52-94): opens mom0 inside try, closes it at
line 89 before returning. -/
def make_overlay_trace (oE m0E : Bool) : HandleTrace :=
  if oE then ⟨[], []⟩
  else if m0E then ⟨[Handle.mom0H], [Handle.mom0H]⟩
  else ⟨[], []⟩

/-- make_mom0 (lines 98-140): opens mom0 inside try, closes it at
line 135. -/
def make_mom0_trace (oE m0E : Bool) : HandleTrace :=
  if oE then ⟨[], []⟩
  else if m0E then ⟨[Handle.mom0H], [Handle.mom0H]⟩
  else ⟨[], []⟩

/-- make_snr (lines 144-189): opens snr inside try (line 151), then
mom0 outside any try (line 156); line 184 closes only hdulist_hi, so
the snr handle is never closed; if mom0 is missing the function
crashes with the snr handle open. -/
def make_snr_trace (oE sE m0E : Bool) : HandleTrace :=
  if oE then ⟨[], []⟩
  else if !sE then ⟨[], []⟩
  else if m0E then ⟨[Handle.snrH, Handle.mom0H], [Handle.mom0H]⟩
  else ⟨[Handle.snrH], []⟩

/-- make_mom1 (lines 193-295): opens mom1 inside try (line 201), then
mom0 outside any try (line 247); line 290 closes only mom1, so the
mom0 handle is never closed; if mom0 is missing the function crashes
with the mom1 handle open. -/
def make_mom1_trace (oE m1E m0E : Bool) : HandleTrace :=
  if oE then ⟨[], []⟩
  else if !m1E then ⟨[], []⟩
  else if m0E then ⟨[Handle.mom1H, Handle.mom0H], [Handle.mom1H]⟩
  else ⟨[Handle.mom1H], []⟩

/-- make_color_im (lines 299-334): opens mom0 at line 309 (no try)
and never closes it. -/
def make_color_im_trace (oE m0E : Bool) : HandleTrace :=
  if oE then ⟨[], []⟩
  else if m0E then ⟨[Handle.mom0H], []⟩
  else ⟨[], []⟩

/-- make_pv (lines 338-396): opens pv inside try (line 345), closes it
at line 391. -/
def make_pv_trace (oE pE : Bool) : HandleTrace :=
  if oE then ⟨[], []⟩
  else if pE then ⟨[Handle.pvH], [Handle.pvH]⟩
  else ⟨[], []⟩

/-! ## Helper lemmas about the survey state machine -/

theorem hstStep_of_not_mem (fetch : SurveyId → FetchResult) (st : RunState)
    (h : SurveyId.hst ∉ st.surveys) : hstStep fetch st = Except.ok st := by
  simp [hstStep, h]

theorem hstStep_surveys (fetch : SurveyId → FetchResult) (st st2 : RunState)
    (h : hstStep fetch st = Except.ok st2) :
    st2.surveys = st.surveys.erase SurveyId.hst := by
  unfold hstStep at h
  by_cases hm : SurveyId.hst ∈ st.surveys
  · rw [if_pos hm] at h
    cases hf : fetch SurveyId.hst <;> rw [hf] at h
    · simp only [Except.ok.injEq] at h
      rw [← h]
    all_goals
      by_cases hh : st.surveys.head? = some SurveyId.hst
      · rw [if_pos hh] at h; cases h
      · rw [if_neg hh] at h
        simp only [Except.ok.injEq] at h
        rw [← h]
  · rw [if_neg hm] at h
    simp only [Except.ok.injEq] at h
    rw [← h, List.erase_of_not_mem hm]

theorem panstarrsStep_surveys (fetch : SurveyId → FetchResult) (st st2 : RunState)
    (h : panstarrsStep fetch st = Except.ok st2) :
    st2.surveys = st.surveys.erase SurveyId.panstarrs := by
  unfold panstarrsStep at h
  by_cases hm : SurveyId.panstarrs ∈ st.surveys
  · rw [if_pos hm] at h
    cases hf : fetch SurveyId.panstarrs <;> rw [hf] at h <;>
      simp only [Except.ok.injEq] at h <;> rw [← h]
  · rw [if_neg hm] at h
    simp only [Except.ok.injEq] at h
    rw [← h, List.erase_of_not_mem hm]

theorem decalsStep_surveys (fetch : SurveyId → FetchResult) (st st2 : RunState)
    (h : decalsStep fetch st = Except.ok st2) :
    st2.surveys = st.surveys.erase SurveyId.decals := by
  unfold decalsStep at h
  by_cases hm : SurveyId.decals ∈ st.surveys
  · rw [if_pos hm] at h
    cases hf : fetch SurveyId.decals <;> rw [hf] at h
    · simp only [Except.ok.injEq] at h
      rw [← h]
    all_goals cases h
  · rw [if_neg hm] at h
    simp only [Except.ok.injEq] at h
    rw [← h, List.erase_of_not_mem hm]

theorem skyviewStep_surveys (fetch : SurveyId → FetchResult) (hd : Option SurveyId)
    (s : SurveyId) (st st2 : RunState)
    (h : skyviewStep fetch hd s st = Except.ok st2) :
    st2.surveys = st.surveys := by
  unfold skyviewStep at h
  cases hf : fetch s <;> rw [hf] at h
  · simp only [Except.ok.injEq] at h
    rw [← h]
  · cases h
  · simp only [Except.ok.injEq] at h
    rw [← h]
  · simp only [Except.ok.injEq] at h
    rw [← h]

theorem skyviewLoop_surveys (fetch : SurveyId → FetchResult) (hd : Option SurveyId)
    (l : List SurveyId) (st st2 : RunState)
    (h : skyviewLoop fetch hd l st = Except.ok st2) :
    st2.surveys = st.surveys := by
  induction l generalizing st with
  | nil =>
    simp only [skyviewLoop, Except.ok.injEq] at h
    rw [← h]
  | cons s rest ih =>
    unfold skyviewLoop at h
    cases hs : skyviewStep fetch hd s st with
    | ok stm =>
      rw [hs] at h
      rw [ih stm h, skyviewStep_surveys fetch hd s st stm hs]
    | error e => rw [hs] at h; cases h

theorem skyviewLoop_skip_all (fetch : SurveyId → FetchResult) (hd : Option SurveyId)
    (l : List SurveyId) (st : RunState)
    (h : ∀ s ∈ l, fetch s = FetchResult.transportError) :
    skyviewLoop fetch hd l st = Except.ok st := by
  induction l with
  | nil => rfl
  | cons s rest ih =>
    have hs : fetch s = FetchResult.transportError := h s (List.mem_cons_self s rest)
    unfold skyviewLoop skyviewStep
    rw [hs]
    exact ih (fun t ht => h t (List.mem_cons_of_mem s ht))

/-! ## Claim C2: the base contour -/

/-- C2 (confirmed): for co-indexed intensity and significance maps,
the base contour is the median of the intensity values at exactly the
pixel coordinates whose significance value lies strictly between lo
and hi; boundary-valued pixels are excluded; and the call in main uses
the default band (2, 3). -/
theorem c2_base_contour_median (mom0 snr : List ℚ) (lo hi : ℚ)
    (hlen : mom0.length = snr.length) :
    base_contour mom0 snr lo hi = medianQ (selectedVals mom0 snr lo hi)
    ∧ (∀ (m s : ℚ) (ms ss : List ℚ), s = lo ∨ s = hi →
        selectedVals (m :: ms) (s :: ss) lo hi = selectedVals ms ss lo hi)
    ∧ main_HIlowest mom0 snr = base_contour mom0 snr 2 3 := by
  refine ⟨?_, ?_, rfl⟩
  · unfold base_contour
    rw [selectedVals_eq_zip_filter mom0 snr lo hi hlen]
  · intro m s ms ss hs
    have hns : ¬(lo < s ∧ s < hi) := by
      rcases hs with h | h <;> rw [h] <;> intro hc
      · exact lt_irrefl lo hc.1
      · exact lt_irrefl hi hc.2
    simp [selectedVals, hns]

/-- Witness for C2 at concrete maps: significance 21/10 and 5/2 fall
inside the band (2, 3), the boundary value 3 is excluded, and the
median of the selected intensities 2 and 4 is 3. -/
theorem c2_base_contour_median_witness :
    base_contour [2, 4, 6] [21/10, 5/2, 3] 2 3
        = medianQ (selectedVals [2, 4, 6] [21/10, 5/2, 3] 2 3)
    ∧ selectedVals [6, 8] [3, 5/2] 2 3 = selectedVals [8] [5/2] 2 3
    ∧ base_contour [2, 4, 6] [21/10, 5/2, 3] 2 3 = some 3 := by
  refine ⟨(c2_base_contour_median [2, 4, 6] [21/10, 5/2, 3] 2 3 (by decide)).1,
          (c2_base_contour_median [2, 4, 6] [21/10, 5/2, 3] 2 3 (by decide)).2.1
            6 3 [8] [5/2] (Or.inr rfl),
          by norm_num [base_contour, medianQ, sortQ, insertSorted,
            List.filter_cons, List.zip_cons_cons]⟩

/-! ## Claim C3: contour levels across figures -/

/-- C3 counterexample: with base contour 1 and position-velocity data
[0, 2] (rms 1), the position-velocity figure contours at -2, 2 and 4;
the level -2 is not in the contour ladder of base 1, so not every
contour-drawing figure draws its levels from the single ladder. -/
theorem c3_pv_ladder_counterexample :
    make_pv_levels [0, 2] = [(-2 : ℝ), 2, 4]
    ∧ (-2 : ℝ) ∉ (contour_ladder 1).map (fun q => (q : ℝ)) := by
  have hvar : pv_variance [0, 2] = 1 := by
    norm_num [pv_variance, listMean]
  have hrms : pv_rms [0, 2] = 1 := by
    unfold pv_rms
    rw [hvar]
    rw [show ((1 : ℚ) : ℝ) = 1 by norm_num, Real.sqrt_one]
  constructor
  · unfold make_pv_levels
    rw [hrms]
    norm_num
  · have hl : contour_ladder 1 = [1, 2, 4, 8, 16, 32, 64, 128, 256, 512] := by
      norm_num [contour_ladder, List.range_succ]
    intro hmem
    rw [List.mem_map] at hmem
    obtain ⟨q, hq, hcast⟩ := hmem
    rw [hl] at hq
    fin_cases hq <;> norm_num at hcast

/-- C3 amended: the optical overlay, grayscale intensity and
false-color figures contour at exactly the ladder of powers-of-two
multiples of the base contour, and the significance figure at the
ladder's base rung C * 2 ^ 0; the position-velocity figure instead
contours at -2, 2 and 4 times the rms of its own slice data (a
nonnegative quantity squaring to the slice variance), a different
base. -/
theorem c3_levels_amended (C : ℚ) (l : List ℚ) :
    make_overlay_levels C = contour_ladder C
    ∧ make_mom0_levels C = contour_ladder C
    ∧ make_color_im_levels C = contour_ladder C
    ∧ make_snr_levels C = [C * 2 ^ 0]
    ∧ 0 ≤ pv_rms l
    ∧ pv_rms l ^ 2 = ((pv_variance l : ℚ) : ℝ)
    ∧ make_pv_levels l = [-(2 * pv_rms l), 2 * pv_rms l, 4 * pv_rms l] := by
  refine ⟨rfl, rfl, rfl, by simp [make_snr_levels], Real.sqrt_nonneg _, ?_, rfl⟩
  have hv : (0 : ℚ) ≤ pv_variance l := by
    unfold pv_variance
    apply div_nonneg
    · apply List.sum_nonneg
      intro x hx
      obtain ⟨y, _, rfl⟩ := List.mem_map.mp hx
      exact sq_nonneg _
    · exact Nat.cast_nonneg _
  unfold pv_rms
  rw [Real.sq_sqrt]
  exact_mod_cast hv

/-! ## Claim C4: velocity-map invalidation -/

/-- C4 (confirmed): after reprojection onto the primary grid, every
pixel whose co-registered intensity value is strictly below the base
contour is set to the NaN sentinel regardless of the velocity map's
own footprint, and every pixel with co-registered intensity at or
above the base contour and full velocity-map footprint coverage keeps
its (valid) velocity value. -/
theorem c4_mom1_invalidation (m1v hiv : Nat → ℚ) (m1fp hifp : Nat → Bool)
    (C : ℚ) (i : Nat) :
    (∀ v : ℚ, reprojectPx hiv hifp i = some v → v < C →
      mask_mom1 (reprojectPx m1v m1fp) (reprojectPx hiv hifp) C i = none)
    ∧ (m1fp i = true → ∀ v : ℚ, reprojectPx hiv hifp i = some v → C ≤ v →
      mask_mom1 (reprojectPx m1v m1fp) (reprojectPx hiv hifp) C i = some (m1v i)) := by
  constructor
  · intro v hv hlt
    simp only [mask_mom1]
    rw [hv]
    simp [npLt, hlt]
  · intro hfp v hv hge
    simp only [mask_mom1]
    rw [hv]
    simp [npLt, not_lt.mpr hge, reprojectPx, hfp]

/-- Witness for C4: a pixel with intensity 1 below contour 2 is
blanked; a pixel with intensity 3 at or above contour 2 and full
footprint keeps its velocity value 5. -/
theorem c4_mom1_invalidation_witness :
    mask_mom1 (reprojectPx (fun _ => 5) (fun _ => true))
      (reprojectPx (fun _ => 1) (fun _ => true)) 2 0 = none
    ∧ mask_mom1 (reprojectPx (fun _ => 5) (fun _ => true))
      (reprojectPx (fun _ => 3) (fun _ => true)) 2 0 = some 5 := by
  constructor
  · exact (c4_mom1_invalidation (fun _ => 5) (fun _ => 1)
      (fun _ => true) (fun _ => true) 2 0).1 1 rfl (by norm_num)
  · exact (c4_mom1_invalidation (fun _ => 5) (fun _ => 3)
      (fun _ => true) (fun _ => true) 2 0).2 rfl 3 rfl (by norm_num)

/-! ## Claim C5: field of view -/

/-- C5 (confirmed): with a nonnegative cell size, the resolved field
of view is the default D when the angular extent E (the largest of
the per-axis max-minus-center and center-minus-min distances, over
both spatial axes, converted by the cell size) satisfies E <= D / 2,
and exactly 2 * E * 1.05 otherwise. -/
theorem c5_field_of_view (Xc Xmin Xmax Yc Ymin Ymax cellsize D : ℚ)
    (hcell : 0 ≤ cellsize) :
    resolve_opt_view Xc Xmin Xmax Yc Ymin Ymax cellsize D =
      (if max (max (Xmax - Xc) (Xc - Xmin)) (max (Ymax - Yc) (Yc - Ymin)) * cellsize
          ≤ D / 2
       then D
       else 2 * (max (max (Xmax - Xc) (Xc - Xmin)) (max (Ymax - Yc) (Yc - Ymin))
                  * cellsize) * (21 / 20)) := by
  have hE : max (max (Xmax - Xc) (Xc - Xmin)) (max (Ymax - Yc) (Yc - Ymin)) * cellsize
      = max (max ((Xmax - Xc) * cellsize) ((Xc - Xmin) * cellsize))
            (max ((Ymax - Yc) * cellsize) ((Yc - Ymin) * cellsize)) := by
    rw [max_mul_of_nonneg _ _ hcell, max_mul_of_nonneg _ _ hcell,
        max_mul_of_nonneg _ _ hcell]
  by_cases hle : max (max (Xmax - Xc) (Xc - Xmin)) (max (Ymax - Yc) (Yc - Ymin))
      * cellsize ≤ D / 2
  · rw [if_pos hle]
    rw [hE] at hle
    unfold resolve_opt_view
    rw [if_neg]
    push_neg
    exact ⟨le_trans (le_trans (le_max_left _ _) (le_max_left _ _)) hle,
           le_trans (le_trans (le_max_right _ _) (le_max_left _ _)) hle,
           le_trans (le_trans (le_max_left _ _) (le_max_right _ _)) hle,
           le_trans (le_trans (le_max_right _ _) (le_max_right _ _)) hle⟩
  · rw [if_neg hle]
    have hlt := lt_of_not_le hle
    rw [hE] at hlt
    unfold resolve_opt_view
    rw [if_pos]
    · rw [← hE]; ring
    · rcases lt_max_iff.mp hlt with h | h
      · rcases lt_max_iff.mp h with h2 | h2
        · exact Or.inl h2
        · exact Or.inr (Or.inl h2)
      · rcases lt_max_iff.mp h with h2 | h2
        · exact Or.inr (Or.inr (Or.inl h2))
        · exact Or.inr (Or.inr (Or.inr h2))

/-- Witness for C5, matching the spec's scenario: extent 5 arcmin with
default field 6 arcmin gives 2 * 5 * 1.05 = 10.5 arcmin. -/
theorem c5_field_of_view_witness :
    resolve_opt_view 0 0 5 0 0 0 1 6 = 21 / 2 := by
  have h := c5_field_of_view 0 0 5 0 0 0 1 6 (by norm_num)
  rw [h]
  norm_num [max_def]

/-! ## Claim C1: choice of the primary registration grid -/

/-- C1 counterexample: with the caller's list [panstarrs, decals] and
both fetches succeeding (headers 1 and 2), the run completes with
opt_head = some 2 — the decals header.  The later-listed survey
supplies the primary grid even though the first-listed survey
succeeded, because each special branch removes itself from the list
and the next branch then finds itself at the head. -/
theorem c1_first_listed_counterexample :
    processSurveys fetchC1cx [SurveyId.panstarrs, SurveyId.decals]
      = Except.ok ⟨[], some 2, [(SurveyId.panstarrs, 1), (SurveyId.decals, 2)]⟩
    ∧ (2 : Nat) ≠ 1 :=
  ⟨rfl, by decide⟩

/-- C1 amended: when the list starts with panstarrs followed by
decals, both fetches succeed, and the remaining surveys all fail with
caught transport errors, the completed run's primary grid is the
decals header — the grid belongs to the last special-survey branch
that found itself at the head of the already-shortened list, not to
the first-listed survey. -/
theorem c1_amended_head_overwrite (fetch : SurveyId → FetchResult) (h1 h2 : Nat)
    (rest : List SurveyId) (st : RunState)
    (hp : fetch SurveyId.panstarrs = FetchResult.success h1)
    (hdec : fetch SurveyId.decals = FetchResult.success h2)
    (hrest : ∀ s ∈ rest, fetch s = FetchResult.transportError)
    (hh : SurveyId.hst ∉ rest)
    (hrun : processSurveys fetch
      (SurveyId.panstarrs :: SurveyId.decals :: rest) = Except.ok st) :
    st.opt_head = some h2 := by
  have hmem : SurveyId.hst ∉ (SurveyId.panstarrs :: SurveyId.decals :: rest) := by
    simp only [List.mem_cons]
    rintro (hc | hc | hc)
    · cases hc
    · cases hc
    · exact hh hc
  have hpeq : panstarrsStep fetch
      ⟨SurveyId.panstarrs :: SurveyId.decals :: rest, none, []⟩
      = Except.ok ⟨SurveyId.decals :: rest, some h1, [(SurveyId.panstarrs, h1)]⟩ := by
    unfold panstarrsStep
    rw [if_pos (List.mem_cons_self _ _), hp]
    rfl
  have hdeq : decalsStep fetch
      ⟨SurveyId.decals :: rest, some h1, [(SurveyId.panstarrs, h1)]⟩
      = Except.ok ⟨rest, some h2,
          [(SurveyId.panstarrs, h1), (SurveyId.decals, h2)]⟩ := by
    unfold decalsStep
    rw [if_pos (List.mem_cons_self _ _), hdec]
    rfl
  have hst0 : hstStep fetch
      ⟨SurveyId.panstarrs :: SurveyId.decals :: rest, none, []⟩
      = Except.ok ⟨SurveyId.panstarrs :: SurveyId.decals :: rest, none, []⟩ :=
    hstStep_of_not_mem fetch _ hmem
  have hcomp : processSurveys fetch (SurveyId.panstarrs :: SurveyId.decals :: rest)
      = Except.ok ⟨rest, some h2, [(SurveyId.panstarrs, h1), (SurveyId.decals, h2)]⟩ := by
    unfold processSurveys
    simp only [hst0, hpeq, hdeq]
    exact skyviewLoop_skip_all fetch _ rest _ hrest
  rw [hcomp] at hrun
  injection hrun with hst2
  rw [← hst2]

/-- Witness for the amended C1 at the concrete environment fetchC1cx
with one trailing SkyView survey. -/
theorem c1_amended_head_overwrite_witness :
    RunState.opt_head ⟨[SurveyId.sky 0], some 2,
      [(SurveyId.panstarrs, 1), (SurveyId.decals, 2)]⟩ = some 2 :=
  c1_amended_head_overwrite fetchC1cx 1 2 [SurveyId.sky 0] _ rfl rfl
    (by decide) (by decide) rfl

/-! ## Claim C6: skipping failed surveys -/

/-- C6 counterexample: the first SkyView survey returns no image
(noCoverage); instead of a warning and a skip, the run aborts with an
uncaught TypeError inside make_overlay, and the second survey — which
would have succeeded — is never reached. -/
theorem c6_skip_counterexample :
    processSurveys fetchC6cx [SurveyId.sky 0, SurveyId.sky 1]
      = Except.error Crash.typeError
    ∧ fetchC6cx (SurveyId.sky 1) = FetchResult.success 3 :=
  ⟨rfl, rfl⟩

/-- C6 amended: the failures the code does catch are skipped cleanly —
a SkyView transport error (HTTPError) or invalid survey name
(ValueError) skips exactly that survey and the loop continues with the
rest, and the panstarrs branch never raises regardless of its fetch
outcome. -/
theorem c6_amended_caught_errors (fetch : SurveyId → FetchResult)
    (hd : Option SurveyId) (s : SurveyId) (rest : List SurveyId) (st : RunState) :
    (fetch s = FetchResult.transportError →
      skyviewLoop fetch hd (s :: rest) st = skyviewLoop fetch hd rest st)
    ∧ (fetch s = FetchResult.invalidName →
      skyviewLoop fetch hd (s :: rest) st = skyviewLoop fetch hd rest st)
    ∧ ∃ st2, panstarrsStep fetch st = Except.ok st2 := by
  refine ⟨?_, ?_, ?_⟩
  · intro h
    simp only [skyviewLoop, skyviewStep, h]
  · intro h
    simp only [skyviewLoop, skyviewStep, h]
  · unfold panstarrsStep
    by_cases hm : SurveyId.panstarrs ∈ st.surveys
    · rw [if_pos hm]
      cases fetch SurveyId.panstarrs
      all_goals exact ⟨_, rfl⟩
    · rw [if_neg hm]
      exact ⟨st, rfl⟩

/-- Witness for the amended C6: a transport-erroring SkyView survey is
skipped and the loop continues on the remaining list. -/
theorem c6_amended_caught_errors_witness :
    skyviewLoop fetchAllTransport none [SurveyId.sky 7] ⟨[], none, []⟩
      = skyviewLoop fetchAllTransport none [] ⟨[], none, []⟩ :=
  (c6_amended_caught_errors fetchAllTransport none (SurveyId.sky 7) []
    ⟨[], none, []⟩).1 rfl

/-! ## Claim C7: gating of the position-velocity figure -/

/-- C7 counterexample: with the snr cubelet missing but the pv file
present, main returns at line 418 before reaching make_pv, so the
position-velocity figure is not produced even though its product file
exists — the figure is not gated only on the pv file. -/
theorem c7_pv_gating_counterexample :
    pvProduced (mainModel fetchAllTransport filesNoSnr []) = false
    ∧ filesNoSnr.pv = true :=
  ⟨rfl, rfl⟩

/-- C7 amended: in every run of main that completes (base-contour
inputs present and no uncaught error in the survey section), the
position-velocity figure is produced exactly when the pv product file
exists, independently of whether a primary grid was obtained. -/
theorem c7_amended_pv (fetch : SurveyId → FetchResult) (files : Files)
    (s0 : List SurveyId) (r : MainResult)
    (h : mainModel fetch files s0 = MainOutcome.done r) :
    r.pvMade = files.pv := by
  unfold mainModel at h
  by_cases hf : (files.snr && files.mom0) = true
  · rw [if_pos hf] at h
    cases hps : processSurveys fetch s0 <;> rw [hps] at h
    · cases h
    · injection h with h2
      rw [← h2]
  · rw [if_neg hf] at h
    cases h

/-- Witness for the amended C7: a completed run with an empty surveys
list (hence no primary grid) still has its pv production equal to the
pv file's existence. -/
theorem c7_amended_pv_witness :
    MainResult.pvMade ⟨[], none, [], false, true⟩ = filesAll.pv :=
  c7_amended_pv fetchAllTransport filesAll [] _ rfl

/-! ## Claim C10: in-place mutation of the caller's surveys list -/

/-- C10 counterexample: a call whose surveys list contains panstarrs
but whose snr cubelet is missing returns early at line 418, before the
survey section runs, so panstarrs is NOT removed from the caller's
list during that call. -/
theorem c10_mutation_counterexample :
    mainModel fetchAllTransport filesNoSnr [SurveyId.panstarrs]
      = MainOutcome.earlyReturn [SurveyId.panstarrs]
    ∧ SurveyId.panstarrs ∈ [SurveyId.panstarrs] :=
  ⟨rfl, List.mem_singleton.mpr rfl⟩

/-- C10 amended: whenever the survey section runs to completion, the
caller's list is mutated in place to
((s0.erase hst).erase panstarrs).erase decals — the first occurrence
of each special survey is removed (and nothing else), in that order. -/
theorem c10_amended_erase (fetch : SurveyId → FetchResult) (s0 : List SurveyId)
    (st : RunState) (h : processSurveys fetch s0 = Except.ok st) :
    st.surveys
      = ((s0.erase SurveyId.hst).erase SurveyId.panstarrs).erase SurveyId.decals := by
  unfold processSurveys at h
  cases e1 : hstStep fetch ⟨s0, none, []⟩ with
  | error e =>
    simp only [e1] at h
    exact Except.noConfusion h
  | ok st1 =>
    simp only [e1] at h
    cases e2 : panstarrsStep fetch st1 with
    | error e =>
      simp only [e2] at h
      exact Except.noConfusion h
    | ok st2 =>
      simp only [e2] at h
      cases e3 : decalsStep fetch st2 with
      | error e =>
        simp only [e3] at h
        exact Except.noConfusion h
      | ok st3 =>
        simp only [e3] at h
        rw [skyviewLoop_surveys fetch _ _ _ _ h,
            decalsStep_surveys fetch st2 st3 e3,
            panstarrsStep_surveys fetch st1 st2 e2,
            hstStep_surveys fetch ⟨s0, none, []⟩ st1 e1]

/-- Witness for the amended C10 at a concrete all-success run. -/
theorem c10_amended_erase_witness :
    RunState.surveys ⟨[SurveyId.sky 1], some 7,
        [(SurveyId.panstarrs, 7), (SurveyId.decals, 7), (SurveyId.sky 1, 7)]⟩
      = (([SurveyId.decals, SurveyId.sky 1, SurveyId.panstarrs].erase
          SurveyId.hst).erase SurveyId.panstarrs).erase SurveyId.decals :=
  c10_amended_erase fetchAllSucc
    [SurveyId.decals, SurveyId.sky 1, SurveyId.panstarrs] _ rfl

/-! ## Claim C8: existence short-circuit and idempotence -/

/-- C8 (confirmed): a figure step whose output file already exists
returns the file system unchanged with no write (never overwrites);
and running a figure step a second time on the file system produced by
the first run performs no write and changes nothing, for both the
overlay and the position-velocity steps. -/
theorem c8_idempotent_no_overwrite (fs : List String) (o m p q : String) :
    (o ∈ fs → make_overlay_fs fs o m = (fs, false))
    ∧ make_overlay_fs (make_overlay_fs fs o m).1 o m
        = ((make_overlay_fs fs o m).1, false)
    ∧ (p ∈ fs → make_pv_fs fs p q = (fs, false))
    ∧ make_pv_fs (make_pv_fs fs p q).1 p q = ((make_pv_fs fs p q).1, false) := by
  refine ⟨?_, ?_, ?_, ?_⟩
  · intro h
    simp [make_overlay_fs, h]
  · by_cases h1 : o ∈ fs
    · simp [make_overlay_fs, h1]
    · by_cases h2 : m ∈ fs
      · simp [make_overlay_fs, h1, h2]
      · simp [make_overlay_fs, h1, h2]
  · intro h
    simp [make_pv_fs, h]
  · by_cases h1 : p ∈ fs
    · simp [make_pv_fs, h1]
    · by_cases h2 : q ∈ fs
      · simp [make_pv_fs, h1, h2]
      · simp [make_pv_fs, h1, h2]

/-- Witness for C8: existing output figures are left untouched with no
write, for a concrete overlay output and a concrete pv output. -/
theorem c8_idempotent_no_overwrite_witness :
    make_overlay_fs ["figures/src_1_mom0dss2blue.png"]
      "figures/src_1_mom0dss2blue.png" "cubelets/src_1_mom0.fits"
      = (["figures/src_1_mom0dss2blue.png"], false)
    ∧ make_pv_fs ["figures/src_1_pv.png"] "figures/src_1_pv.png"
        "cubelets/src_1_pv.fits"
      = (["figures/src_1_pv.png"], false) := by
  constructor
  · exact (c8_idempotent_no_overwrite ["figures/src_1_mom0dss2blue.png"]
      "figures/src_1_mom0dss2blue.png" "cubelets/src_1_mom0.fits" "p" "q").1
      (List.mem_singleton.mpr rfl)
  · exact (c8_idempotent_no_overwrite ["figures/src_1_pv.png"] "o" "m"
      "figures/src_1_pv.png" "cubelets/src_1_pv.fits").2.2.1
      (List.mem_singleton.mpr rfl)

/-! ## Claim C9: handle hygiene of the figure steps -/

/-- C9 counterexample: on its normal path (output missing, snr and
mom0 present) make_snr finishes with the snr handle still open — it
closes only hdulist_hi at line 184 — so not every figure step closes
every handle it opens on every exit path. -/
theorem c9_handle_counterexample :
    leftover (make_snr_trace false true true) = [Handle.snrH]
    ∧ leftover (make_snr_trace false true true) ≠ [] := by
  constructor <;> decide

/-- C9 amended: make_overlay, make_mom0 and make_pv close every handle
they open on every exit path; make_snr leaves the snr handle open
whenever it opens it, make_mom1 leaves the mom0 handle open on its
normal path (and the mom1 handle open when the unguarded mom0 open
crashes it), and make_color_im leaves its mom0 handle open whenever it
opens it. -/
theorem c9_handles_amended (oE m0E sE m1E pE : Bool) :
    leftover (make_overlay_trace oE m0E) = []
    ∧ leftover (make_mom0_trace oE m0E) = []
    ∧ leftover (make_pv_trace oE pE) = []
    ∧ leftover (make_snr_trace oE sE m0E)
        = (if oE = false ∧ sE = true then [Handle.snrH] else [])
    ∧ leftover (make_mom1_trace oE m1E m0E)
        = (if oE = false ∧ m1E = true then
            (if m0E = true then [Handle.mom0H] else [Handle.mom1H]) else [])
    ∧ leftover (make_color_im_trace oE m0E)
        = (if oE = false ∧ m0E = true then [Handle.mom0H] else []) := by
  cases oE <;> cases m0E <;> cases sE <;> cases m1E <;> cases pE <;> decide
